import Mathlib

/-!
Verification development for the x402 Payment Facilitator and Atomic
Settlement Engine (the `arcent` repository).

The JavaScript source is shallowly embedded: each relevant source function
becomes a Lean definition with the same branching structure.  External
runtime primitives (the ethers signature-recovery oracle, the chain RPC,
`fetch`, `JSON.parse`/base64 transport) are passed in as explicit
parameters or `Except`-valued outcomes so that the control flow the
repository actually implements is what gets verified.  JavaScript numbers
used for money and scores are modelled as `ℚ`; integer amounts and Unix
timestamps as `ℕ`; JavaScript truthiness on optional strings is modelled
explicitly (`jsTruthy`, `jsOr`).
-/

namespace Arcent

/-! ## Small JavaScript-semantics helpers -/

/-- Truthiness of a JS value that is either `undefined` (`none`) or a string:
`undefined` and the empty string are falsy. -/
def jsTruthy : Option String → Bool
  | none => false
  | some s => !s.isEmpty

/-- JS `a || b` on optional strings: yields `a` when `a` is truthy, else `b`. -/
def jsOr (a b : Option String) : Option String :=
  if jsTruthy a then a else b

/-- `s.toLowerCase()` (character-wise, over the string's character list so
that concrete instances evaluate in the kernel). -/
def toLowerCase (s : String) : String :=
  ⟨s.data.map Char.toLower⟩

/-! ## Provider Reliability Tracker (`getProviderScore`, part_004 lines 124-134)

`providerStats[provider]` may be absent (unknown provider), hence the
`Option` argument.  Counters are the source's `success`, `failure`,
`totalLatency` fields. -/

structure ProviderStat where
  success : Nat
  failure : Nat
  totalLatency : Nat
deriving DecidableEq

/-- Embedding of `getProviderScore` (part_004 lines 124-134):
missing stats → 1.0; zero observations → 1.0; otherwise
`successRate * 0.7 + latencyScore * 0.3` with
`latencyScore = max(0, 1 - avgLatency / 5000)`. -/
def getProviderScore (stats : Option ProviderStat) : ℚ :=
  match stats with
  | none => 1
  | some s =>
    let total : Nat := s.success + s.failure
    if total = 0 then 1
    else
      let successRate : ℚ := (s.success : ℚ) / (total : ℚ)
      let avgLatency : ℚ := (s.totalLatency : ℚ) / (total : ℚ)
      let latencyScore : ℚ := max 0 (1 - avgLatency / 5000)
      successRate * (7/10) + latencyScore * (3/10)

lemma getProviderScore_nonneg (stats : Option ProviderStat) :
    0 ≤ getProviderScore stats := by
  rcases stats with _ | s
  · norm_num [getProviderScore]
  · simp only [getProviderScore]
    split
    · norm_num
    · have h1 : (0:ℚ) ≤ (s.success : ℚ) / ((s.success + s.failure : Nat) : ℚ) :=
        div_nonneg (by positivity) (by positivity)
      have h2 : (0:ℚ) ≤ max 0 (1 - ((s.totalLatency : ℚ) / ((s.success + s.failure : Nat) : ℚ)) / 5000) :=
        le_max_left _ _
      nlinarith

lemma getProviderScore_le_one (stats : Option ProviderStat) :
    getProviderScore stats ≤ 1 := by
  rcases stats with _ | s
  · norm_num [getProviderScore]
  · simp only [getProviderScore]
    split
    · norm_num
    · rename_i htot
      have htpos : (0:ℚ) < ((s.success + s.failure : Nat) : ℚ) := by
        have : 0 < s.success + s.failure := Nat.pos_of_ne_zero htot
        exact_mod_cast this
      have h1 : (s.success : ℚ) / ((s.success + s.failure : Nat) : ℚ) ≤ 1 := by
        rw [div_le_one htpos]
        exact_mod_cast Nat.le_add_right s.success s.failure
      have h2 : max 0 (1 - ((s.totalLatency : ℚ) / ((s.success + s.failure : Nat) : ℚ)) / 5000) ≤ 1 := by
        apply max_le (by norm_num)
        have : (0:ℚ) ≤ ((s.totalLatency : ℚ) / ((s.success + s.failure : Nat) : ℚ)) / 5000 := by
          positivity
        linarith
      have h0 : (0:ℚ) ≤ max 0 (1 - ((s.totalLatency : ℚ) / ((s.success + s.failure : Nat) : ℚ)) / 5000) :=
        le_max_left _ _
      have h00 : (0:ℚ) ≤ (s.success : ℚ) / ((s.success + s.failure : Nat) : ℚ) :=
        div_nonneg (by positivity) (by positivity)
      nlinarith

/-- C6: the reliability score equals
`0.7 * successRate + 0.3 * max(0, 1 - avgLatencyMs/5000)` and lies in `[0,1]`;
with zero recorded observations (or an unknown provider) the score is exactly
`1.0`, and with successRate `1.0` and average latency `5000` ms it is exactly
`0.7`. -/
theorem providerScore_spec (stats : Option ProviderStat) :
    (0 ≤ getProviderScore stats ∧ getProviderScore stats ≤ 1)
    ∧ getProviderScore none = 1
    ∧ (∀ s, stats = some s → s.success + s.failure = 0 → getProviderScore stats = 1)
    ∧ (∀ s, stats = some s → s.success + s.failure ≠ 0 →
        getProviderScore stats =
          ((s.success : ℚ) / ((s.success + s.failure : Nat) : ℚ)) * (7/10)
          + (max 0 (1 - ((s.totalLatency : ℚ) / ((s.success + s.failure : Nat) : ℚ)) / 5000)) * (3/10))
    ∧ (∀ s, stats = some s → s.failure = 0 → s.success ≠ 0 →
        s.totalLatency = 5000 * s.success → getProviderScore stats = 7/10) := by
  refine ⟨⟨getProviderScore_nonneg stats, getProviderScore_le_one stats⟩, by norm_num [getProviderScore], ?_, ?_, ?_⟩
  · rintro s rfl h
    simp [getProviderScore, h]
  · rintro s rfl h
    simp [getProviderScore, h]
  · rintro s rfl hf hs hl
    have hsq : ((s.success : ℚ)) ≠ 0 := Nat.cast_ne_zero.mpr hs
    simp only [getProviderScore, hf, Nat.add_zero, hl, hs, if_false]
    rw [div_self hsq]
    have : ((5000 * s.success : Nat) : ℚ) / (s.success : ℚ) = 5000 := by
      push_cast
      field_simp
    rw [this]
    norm_num

/-- Witness for C6 at concrete stats: one success, no failures, 5000 ms total
latency gives score exactly `0.7`; a fresh provider scores `1`. -/
theorem providerScore_spec_witness :
    getProviderScore (some ⟨1, 0, 5000⟩) = 7/10 ∧ getProviderScore none = 1 := by
  refine ⟨?_, (providerScore_spec none).2.1⟩
  exact (providerScore_spec (some ⟨1, 0, 5000⟩)).2.2.2.2 ⟨1, 0, 5000⟩ rfl rfl
    (by decide) (by decide)

/-! ## Signature Verifier (`verifySignature`, arcVerifier.js lines 212-265)

The EIP-712 machinery of `ethers` (`Signature.from` plus `verifyTypedData`,
i.e. keccak hashing and secp256k1 recovery) is an external given primitive
(spec §1); it is modelled as a `recover` oracle returning either the
recovered signer address or — when the signature is malformed and ethers
throws — an error message.  The `try/catch` of the source maps the thrown
case to a `valid=false` result.  The canonical message handed to the oracle
is exactly the fixed Arc domain plus the authorization's six fields. -/

structure EIP712Domain where
  name : String
  version : String
  chainId : Nat
  verifyingContract : String
deriving DecidableEq

/-- The fixed domain built in `verifySignature`:
`{name: 'USDC', version: '2', chainId: ARC_CONFIG.chainId, verifyingContract: ARC_CONFIG.usdc}`. -/
def arcDomain : EIP712Domain :=
  ⟨"USDC", "2", 5042002, "0x036CbD53842c5426634e7929541eC2318f3dCF7e"⟩

/-- The authorization record carried in the payment payload.  The JS `from`
and `to` fields are rendered `fromAddr`/`toAddr` (`from` is a Lean keyword);
amount and window are the post-`BigInt`/`parseInt` numeric values. -/
structure AuthorizationData where
  fromAddr : String
  toAddr : String
  value : Nat
  validAfter : Nat
  validBefore : Nat
  nonce : String
deriving DecidableEq

/-- An ethers signature-recovery oracle: given the EIP-712 domain, the
TransferWithAuthorization message (the six authorization fields) and the
signature string, either recovers a signer address or throws. -/
def RecoverOracle : Type :=
  EIP712Domain → AuthorizationData → String → Except String String

structure SigVerifyResult where
  valid : Bool
  recoveredAddress : Option String
  error : Option String
deriving DecidableEq

/-- Embedding of `verifySignature` (arcVerifier.js lines 212-265): recover the
signer of the canonical TransferWithAuthorization message under the fixed Arc
domain; `valid` iff the recovered address equals `authorization.from`
case-insensitively; a throwing recovery (malformed signature) is caught and
reported as `valid=false` with an explanatory message. -/
def verifySignature (recover : RecoverOracle) (auth : AuthorizationData)
    (signature : String) : SigVerifyResult :=
  match recover arcDomain auth signature with
  | .error e => ⟨false, none, some ("Signature verification failed: " ++ e)⟩
  | .ok addr => ⟨toLowerCase addr == toLowerCase auth.fromAddr, some addr, none⟩

/-- C2: `verifySignature` returns `valid=true` iff the signer recovered from
the canonical EIP-712 TransferWithAuthorization message equals the
authorization's payer case-insensitively, and on malformed signature input
(the recovery oracle throws) it returns `valid=false` with an explanatory
reason instead of propagating the exception. -/
theorem verifySignature_spec (recover : RecoverOracle) (auth : AuthorizationData)
    (signature : String) :
    (∀ addr, recover arcDomain auth signature = .ok addr →
      ((verifySignature recover auth signature).valid = true ↔
        toLowerCase addr = toLowerCase auth.fromAddr))
    ∧ (∀ e, recover arcDomain auth signature = .error e →
      (verifySignature recover auth signature).valid = false ∧
      (verifySignature recover auth signature).error =
        some ("Signature verification failed: " ++ e)) := by
  constructor
  · intro addr h
    simp [verifySignature, h]
  · intro e h
    simp [verifySignature, h]

/-- Witness for C2: a recovery oracle that returns `0xAbC` validates an
authorization whose payer is `0xabc` (case-insensitive match), and a throwing
oracle yields `valid=false` with the wrapped reason. -/
theorem verifySignature_spec_witness :
    (verifySignature (fun _ _ _ => .ok "0xAbC")
        ⟨"0xabc", "0xdef", 1, 0, 10, "0x01"⟩ "sig").valid = true
    ∧ (verifySignature (fun _ _ _ => .error "bad sig")
        ⟨"0xabc", "0xdef", 1, 0, 10, "0x01"⟩ "sig").valid = false := by
  constructor
  · exact ((verifySignature_spec (fun _ _ _ => .ok "0xAbC")
      ⟨"0xabc", "0xdef", 1, 0, 10, "0x01"⟩ "sig").1 "0xAbC" rfl).mpr (by decide)
  · exact ((verifySignature_spec (fun _ _ _ => .error "bad sig")
      ⟨"0xabc", "0xdef", 1, 0, 10, "0x01"⟩ "sig").2 "bad sig" rfl).1

/-! ## Balance Oracle (`checkBalance`, arcExecutor.js lines 74-102)

The RPC call `provider.getBalance` is external; its outcome is an
`Except String ℚ` (thrown message, or balance already scaled by
`formatUnits(·, 18)`).  `required` is the `parseFloat`-ed required amount.
The `toFixed(4)` display rounding of the source is elided: the `sufficient`
verdict is computed from the unrounded balance in the source as well. -/

structure BalanceCheck where
  sufficient : Bool
  balance : ℚ
  required : ℚ
  error : Option String
deriving DecidableEq

/-- Embedding of `checkBalance` (arcExecutor.js lines 74-102): on a successful
RPC query compare balance against the required amount; when the RPC call
throws, catch it and report `sufficient=false`, balance `0`, with the error
message, instead of propagating the exception. -/
def checkBalance (rpc : Except String ℚ) (required : ℚ) : BalanceCheck :=
  match rpc with
  | .ok b => ⟨decide (required ≤ b), b, required, none⟩
  | .error e => ⟨false, 0, required, some e⟩

/-- C7: when the underlying RPC query fails, the sufficiency check returns
`sufficient=false` with the failure reason attached (the facilitator fails
closed) rather than propagating a hard error — `checkBalance` is total on the
failure case and never re-throws. -/
theorem checkBalance_fails_closed (rpc : Except String ℚ) (required : ℚ)
    (e : String) (h : rpc = .error e) :
    checkBalance rpc required = ⟨false, 0, required, some e⟩ := by
  simp [checkBalance, h]

/-- Witness for C7: a concrete RPC failure is reported as an insufficient
balance with the reason attached. -/
theorem checkBalance_fails_closed_witness :
    checkBalance (.error "connection refused") (1/100) =
      ⟨false, 0, 1/100, some "connection refused"⟩ :=
  checkBalance_fails_closed (.error "connection refused") (1/100)
    "connection refused" rfl

/-! ## Facilitator pipeline (`processX402Payment`, arcVerifier.js lines 291-385)

The decoded payment (step 1) is taken as already parsed: `network`,
`signature` and the numeric `authorization` record.  `now` is
`Math.floor(Date.now()/1000)`; the on-chain nonce query (step 7,
`isNonceUsed`) and the settlement submission (step 8) are external chain
interactions passed in as outcomes.  `chain = .ok true` models a receipt
with `status === 1`, `.ok false` a mined-but-failed receipt, `.error e` a
thrown submission error.  The step-2 network check in the source only logs
a warning and never rejects, so `network` does not influence the result. -/

structure DecodedX402Payment where
  network : String
  signature : String
  authorization : AuthorizationData
deriving DecidableEq

/-- Outcome of `processX402Payment`: the returned `success`/`error` fields,
plus `submitted`, which records whether step 8 (the on-chain
`transferWithAuthorization` submission) was ever reached. -/
structure X402Outcome where
  success : Bool
  error : Option String
  submitted : Bool
deriving DecidableEq

/-- Embedding of `processX402Payment` (arcVerifier.js lines 291-385), steps 3
to 8 in source order: signature verification, recipient match, amount
sufficiency, time-window validity (`validAfter` then `validBefore`), on-chain
nonce replay check, then — and only then — the settlement submission. -/
def processX402Payment (recover : RecoverOracle) (payment : DecodedX402Payment)
    (expectedRecipient : String) (expectedAmountMicro : Nat) (now : Nat)
    (nonceUsed : Bool) (chain : Except String Bool) : X402Outcome :=
  let sigResult := verifySignature recover payment.authorization payment.signature
  if !sigResult.valid then
    ⟨false, jsOr sigResult.error (some "Invalid signature"), false⟩
  else if toLowerCase payment.authorization.toAddr != toLowerCase expectedRecipient then
    ⟨false, some ("Recipient mismatch: expected " ++ expectedRecipient ++ ", got "
      ++ payment.authorization.toAddr), false⟩
  else if payment.authorization.value < expectedAmountMicro then
    ⟨false, some "Insufficient amount", false⟩
  else if now < payment.authorization.validAfter then
    ⟨false, some "Payment not yet valid", false⟩
  else if payment.authorization.validBefore < now then
    ⟨false, some "Payment expired", false⟩
  else if nonceUsed then
    ⟨false, some "Nonce already used (replay attack prevented)", false⟩
  else
    match chain with
    | .ok true => ⟨true, none, true⟩
    | .ok false => ⟨false, some "Transaction failed on-chain", true⟩
    | .error e => ⟨false, some ("Execution failed: " ++ e), true⟩

/-- C5: a payment whose authorization `validBefore` lies strictly in the past
is rejected by `processX402Payment` at the verification stage with the
`Payment expired` error and no on-chain transfer is submitted; symmetrically,
a `validAfter` strictly in the future is rejected as `Payment not yet valid`.
(The earlier signature/recipient/amount gates are assumed passed, as in the
spec's scenario D of an otherwise-valid authorization.) -/
theorem processX402Payment_time_window (recover : RecoverOracle)
    (payment : DecodedX402Payment) (expectedRecipient : String)
    (expectedAmountMicro : Nat) (now : Nat) (nonceUsed : Bool)
    (chain : Except String Bool)
    (hsig : (verifySignature recover payment.authorization payment.signature).valid = true)
    (hrcpt : toLowerCase payment.authorization.toAddr = toLowerCase expectedRecipient)
    (hamt : expectedAmountMicro ≤ payment.authorization.value) :
    (payment.authorization.validAfter ≤ now →
      payment.authorization.validBefore < now →
      processX402Payment recover payment expectedRecipient expectedAmountMicro
        now nonceUsed chain = ⟨false, some "Payment expired", false⟩)
    ∧ (now < payment.authorization.validAfter →
      processX402Payment recover payment expectedRecipient expectedAmountMicro
        now nonceUsed chain = ⟨false, some "Payment not yet valid", false⟩) := by
  constructor
  · intro hafter hexp
    simp [processX402Payment, hsig, hrcpt, Nat.not_lt.mpr hamt, Nat.not_lt.mpr hafter, hexp]
  · intro hnot
    simp [processX402Payment, hsig, hrcpt, Nat.not_lt.mpr hamt, hnot]

/-- Witness for C5: a concrete authorization with window `[0, 10]` checked at
`now = 11` is rejected as expired with no submission; checked at `now = 5`
against window `[7, 10]` it is rejected as not yet valid. -/
theorem processX402Payment_time_window_witness :
    processX402Payment (fun _ _ _ => .ok "0xaa")
      ⟨"arc-testnet", "sig", ⟨"0xaa", "0xbb", 10000, 0, 10, "0x01"⟩⟩
      "0xBB" 10000 11 false (.ok true) = ⟨false, some "Payment expired", false⟩
    ∧ processX402Payment (fun _ _ _ => .ok "0xaa")
      ⟨"arc-testnet", "sig", ⟨"0xaa", "0xbb", 10000, 7, 10, "0x01"⟩⟩
      "0xBB" 10000 5 false (.ok true) = ⟨false, some "Payment not yet valid", false⟩ := by
  constructor
  · exact (processX402Payment_time_window (fun _ _ _ => .ok "0xaa")
      ⟨"arc-testnet", "sig", ⟨"0xaa", "0xbb", 10000, 0, 10, "0x01"⟩⟩
      "0xBB" 10000 11 false (.ok true) (by decide) (by decide) (by decide)).1
      (by decide) (by decide)
  · exact (processX402Payment_time_window (fun _ _ _ => .ok "0xaa")
      ⟨"arc-testnet", "sig", ⟨"0xaa", "0xbb", 10000, 7, 10, "0x01"⟩⟩
      "0xBB" 10000 5 false (.ok true) (by decide) (by decide) (by decide)).2
      (by decide)

/-! ## Agent settlement flow (`/agent/x402` handler, part_004 lines 622-1084)

The result-validation predicate (`isErrorResult`, lines 969-984) inspects the
downstream JSON body field-wise; fields are optional strings (numeric fields
such as `temperature` arrive stringified, which leaves every branch of the
predicate unchanged since the error markers are non-numeric words). -/

/-- Ascii prefix test on character lists. -/
def isPrefixChars : List Char → List Char → Bool
  | [], _ => true
  | _ :: _, [] => false
  | a :: as, b :: bs => a == b && isPrefixChars as bs

/-- Substring containment on character lists. -/
def containsChars (p : List Char) : List Char → Bool
  | [] => p.isEmpty
  | c :: cs => isPrefixChars p (c :: cs) || containsChars p cs

/-- JS `s.includes(pat)`. -/
def includesStr (s pat : String) : Bool :=
  containsChars pat.data s.data

/-- The downstream service's decoded JSON body, restricted to the fields the
handler's validation predicate reads. -/
structure ApiResult where
  result : Option String
  translation : Option String
  sentiment : Option String
  temperature : Option String
  price : Option String
  city : Option String
  model : Option String
deriving DecidableEq

/-- `resultContent` (part_004 lines 971-972):
`apiResult.result || apiResult.translation || apiResult.sentiment ||
apiResult.temperature || apiResult.price || ''`. -/
def resultContent (r : ApiResult) : String :=
  match jsOr r.result (jsOr r.translation (jsOr r.sentiment
      (jsOr r.temperature r.price))) with
  | some s => if s.isEmpty then "" else s
  | none => ""

/-- `hasValidContent` (part_004 lines 975-976):
`apiResult.temperature || apiResult.price || apiResult.translation ||
apiResult.sentiment || apiResult.result || apiResult.city`. -/
def hasValidContent (r : ApiResult) : Bool :=
  jsTruthy (jsOr r.temperature (jsOr r.price (jsOr r.translation
    (jsOr r.sentiment (jsOr r.result r.city)))))

/-- `isErrorResult` (part_004 lines 978-984): a fallback marker with no valid
content field, or a result string containing one of the error phrases. -/
def isErrorResult (r : ApiResult) : Bool :=
  ((!hasValidContent r) && r.model == some "fallback")
  || (includesStr (toLowerCase (resultContent r)) "could not process"
      || includesStr (toLowerCase (resultContent r)) "failed"
      || includesStr (toLowerCase (resultContent r)) "error")

/-- The externally observable outcome of one `/agent/x402` attempt:
`paid` as reported in `result.paid`, `settlementSubmitted` recording whether
`arcExecutor.executeSimpleTransfer` (part_004 line 1024) was invoked, and the
`success` flag / failure reason of the response. -/
structure AgentOutcome where
  paid : Bool
  settlementSubmitted : Bool
  success : Bool
  reason : Option String
deriving DecidableEq

/-- Embedding of the settlement portion of the `/agent/x402` handler
(part_004 lines 849-1079), in source order: the AI payment decision gate
(line 861), the pre-flight executor balance gate (line 917), the downstream
service call outcome (`serviceOk` = HTTP 2xx, line 944), the result
validation predicate (line 986), and only past all four the on-chain
settlement (line 1024), whose receipt decides the final response.  A failed
settlement after a delivered service re-throws (line 1078). -/
def agentSettlementFlow (aiApproved : Bool) (aiReason : String)
    (balanceSufficient : Bool) (serviceOk : Bool) (svcError : Option String)
    (apiResult : ApiResult) (txSuccess : Bool) : AgentOutcome :=
  if !aiApproved then
    ⟨false, false, false, some aiReason⟩
  else if !balanceSufficient then
    ⟨false, false, false, some "Insufficient executor balance for atomic settlement"⟩
  else if !serviceOk then
    ⟨false, false, false,
      some ((jsOr svcError (some "Service failed - no payment made")).getD "")⟩
  else if isErrorResult apiResult then
    ⟨false, false, false, some "Service returned error - no payment made"⟩
  else if txSuccess then
    ⟨true, true, true, none⟩
  else
    ⟨false, true, false, some "Transaction failed on-chain after service"⟩

/-- C1: in the agent settlement flow no on-chain transfer is submitted unless
the downstream service call returned 2xx and its payload passed the
result-validation predicate; whenever the service responds non-2xx or the
payload is flagged by `isErrorResult`, the attempt ends with `paid = false`
and the settlement transfer is never executed. -/
theorem agentSettlement_service_first (aiApproved : Bool) (aiReason : String)
    (balanceSufficient : Bool) (serviceOk : Bool) (svcError : Option String)
    (apiResult : ApiResult) (txSuccess : Bool) :
    ((agentSettlementFlow aiApproved aiReason balanceSufficient serviceOk
        svcError apiResult txSuccess).settlementSubmitted = true →
      serviceOk = true ∧ isErrorResult apiResult = false)
    ∧ (serviceOk = false ∨ isErrorResult apiResult = true →
      (agentSettlementFlow aiApproved aiReason balanceSufficient serviceOk
        svcError apiResult txSuccess).paid = false ∧
      (agentSettlementFlow aiApproved aiReason balanceSufficient serviceOk
        svcError apiResult txSuccess).settlementSubmitted = false) := by
  cases aiApproved <;> cases balanceSufficient <;> cases serviceOk <;>
    cases hE : isErrorResult apiResult <;> cases txSuccess <;>
      simp [agentSettlementFlow, hE]

/-- Witness for C1: with every earlier gate passed, a non-2xx service response
terminates the attempt unpaid with no settlement, and a flagged fallback
payload does the same. -/
theorem agentSettlement_service_first_witness :
    ((agentSettlementFlow true "ok" true false none
        ⟨none, none, none, none, none, none, none⟩ true).paid = false
      ∧ (agentSettlementFlow true "ok" true false none
        ⟨none, none, none, none, none, none, none⟩ true).settlementSubmitted = false)
    ∧ ((agentSettlementFlow true "ok" true true none
        ⟨none, none, none, none, none, none, some "fallback"⟩ true).paid = false
      ∧ (agentSettlementFlow true "ok" true true none
        ⟨none, none, none, none, none, none, some "fallback"⟩ true).settlementSubmitted = false) := by
  constructor
  · exact (agentSettlement_service_first true "ok" true false none
      ⟨none, none, none, none, none, none, none⟩ true).2 (Or.inl rfl)
  · exact (agentSettlement_service_first true "ok" true true none
      ⟨none, none, none, none, none, none, some "fallback"⟩ true).2
      (Or.inr (by decide))

/-! ## `/proxy/:apiId` payment handler (part_004 lines 272-409)

The decoded payment header is `{txHash, amount, wallet}`; `amount` is kept
as the post-`parseFloat` value, with `none` standing for an absent field or
`NaN` (both falsy under `||`, like a parsed `0`).  `realVerify` is the
outcome of the awaited on-chain `arcVerifier.verifyPayment` call, consulted
only for hashes of the real on-chain shape. -/

structure ProxyPayment where
  txHash : Option String
  amount : Option ℚ
  wallet : Option String
deriving DecidableEq

/-- Outcome of `arcVerifier.verifyPayment` as consumed by the handler. -/
structure VerifyOutcome where
  valid : Bool
  actualAmount : ℚ
  simulated : Bool
  errMsg : Option String
deriving DecidableEq

/-- The handler's possible responses: 400 errors, a 402 verification failure,
or the forwarded response carrying the `_x402 {paid, amount, verified}`
confirmation. -/
inductive ProxyResult where
  | badRequest (msg : String)
  | paymentFailed (details : Option String)
  | served (paid : Bool) (amount : ℚ) (simulated : Bool)
deriving DecidableEq

/-- `txHash.startsWith('arc:0x') && txHash.length > 20` (part_004 line 323):
the shape that triggers real on-chain verification (expressed over the
string's character list so that concrete instances evaluate in the kernel). -/
def isRealTxHash (tx : String) : Bool :=
  isPrefixChars "arc:0x".data tx.data && decide (20 < tx.data.length)

/-- `parseFloat(payment.amount) || api.pricePerCall` (part_004 line 334). -/
def amountOrPrice (amount : Option ℚ) (price : ℚ) : ℚ :=
  match amount with
  | some a => if a = 0 then price else a
  | none => price

/-- Embedding of the payment-verification section of the `/proxy/:apiId`
handler (part_004 lines 306-404): reject a missing (falsy) `txHash`; reject a
hash already in `usedTxHashes` with `Payment already used` and no state
change; otherwise verify (on-chain for real-shaped hashes, simulated
`valid:true` for demo hashes), reject invalid verification without consuming
the hash, and on success add the hash to the used set and serve the forwarded
response with `paid: true`. -/
def proxyStep (p : ProxyPayment) (price : ℚ) (realVerify : VerifyOutcome)
    (used : List String) : ProxyResult × List String :=
  match p.txHash with
  | none => (.badRequest "Missing transaction hash in payment", used)
  | some tx =>
    if tx.isEmpty then (.badRequest "Missing transaction hash in payment", used)
    else if used.contains tx then (.badRequest "Payment already used", used)
    else
      let vr : VerifyOutcome :=
        if isRealTxHash tx then realVerify
        else ⟨true, amountOrPrice p.amount price, true, none⟩
      if !vr.valid then (.paymentFailed vr.errMsg, used)
      else (.served true vr.actualAmount vr.simulated, tx :: used)

/-- C3: a payment key already consumed is rejected as a replay
(`Payment already used`) with the used-set untouched and nothing served; a
fresh demo-mode key is accepted, after which the key is in the used set, so
every later consume of the identical key is rejected the same way. -/
theorem proxyStep_replay_guard (p p' : ProxyPayment) (price price' : ℚ)
    (rv rv' : VerifyOutcome) (used : List String) (tx : String)
    (htx : p.txHash = some tx) (hne : tx.isEmpty = false)
    (hfresh : tx ∉ used) (hdemo : isRealTxHash tx = false) :
    proxyStep p price rv used =
        (.served true (amountOrPrice p.amount price) true, tx :: used)
    ∧ (∀ used' : List String, p'.txHash = some tx → tx ∈ used' →
        proxyStep p' price' rv' used' = (.badRequest "Payment already used", used'))
    ∧ (p'.txHash = some tx →
        proxyStep p' price' rv' (proxyStep p price rv used).2 =
          (.badRequest "Payment already used", tx :: used)) := by
  have hstep : proxyStep p price rv used =
      (.served true (amountOrPrice p.amount price) true, tx :: used) := by
    simp [proxyStep, htx, hne, hfresh, hdemo]
  have hrej : ∀ (used' : List String), p'.txHash = some tx →
      tx ∈ used' →
      proxyStep p' price' rv' used' = (.badRequest "Payment already used", used') := by
    intro used' hq hmem
    simp [proxyStep, hq, hne, hmem]
  refine ⟨hstep, hrej, ?_⟩
  intro hq
  rw [hstep]
  exact hrej (tx :: used) hq (List.mem_cons_self tx used)

/-- Witness for C3: a concrete demo payment key `demo-tx-1` is accepted on
first consume and rejected as `Payment already used` — with the used set
unchanged — when submitted again. -/
theorem proxyStep_replay_guard_witness :
    proxyStep ⟨some "demo-tx-1", none, none⟩ (1/100) ⟨false, 0, false, none⟩ [] =
      (.served true (1/100) true, ["demo-tx-1"])
    ∧ proxyStep ⟨some "demo-tx-1", none, none⟩ (1/100) ⟨false, 0, false, none⟩
        ["demo-tx-1"] = (.badRequest "Payment already used", ["demo-tx-1"]) := by
  have h := proxyStep_replay_guard ⟨some "demo-tx-1", none, none⟩
    ⟨some "demo-tx-1", none, none⟩ (1/100) (1/100) ⟨false, 0, false, none⟩
    ⟨false, 0, false, none⟩ [] "demo-tx-1" rfl (by decide) (by simp) (by decide)
  refine ⟨?_, h.2.1 ["demo-tx-1"] rfl (by simp)⟩
  rw [h.1]
  rfl

/-- C10: a present, previously unused payment hash that is not of the real
on-chain shape (`arc:0x…` longer than 20 characters) is accepted with no
on-chain verification at all: the result is the simulated verification
record, the hash is added to the used set, and the downstream request is
served with `paid = true` — whatever the real verifier would have said. -/
theorem proxyStep_demo_mode (p : ProxyPayment) (price : ℚ)
    (rv : VerifyOutcome) (used : List String) (tx : String)
    (htx : p.txHash = some tx) (hne : tx.isEmpty = false)
    (hfresh : tx ∉ used) (hdemo : isRealTxHash tx = false) :
    proxyStep p price rv used =
      (.served true (amountOrPrice p.amount price) true, tx :: used) := by
  simp [proxyStep, htx, hne, hfresh, hdemo]

/-- Witness for C10: the hash `arc:short` (not of the real shape) with an
on-chain verifier that would reject is nevertheless served as paid and
simulated, and consumes the hash. -/
theorem proxyStep_demo_mode_witness :
    proxyStep ⟨some "arc:short", some (3/100), none⟩ (1/100)
      ⟨false, 0, false, some "Transaction not found"⟩ [] =
      (.served true (3/100) true, ["arc:short"]) := by
  have h := proxyStep_demo_mode ⟨some "arc:short", some (3/100), none⟩ (1/100)
    ⟨false, 0, false, some "Transaction not found"⟩ [] "arc:short"
    rfl (by decide) (by simp) (by decide)
  rw [h]
  norm_num [amountOrPrice]

/-! ## Replay-guard race (C4)

For a real-shaped hash the handler's `usedTxHashes.has` check (part_004
line 316) and `usedTxHashes.add` (line 347) are separated by the awaited
`arcVerifier.verifyPayment` RPC (line 325) — a genuine yield point of the
Node event loop.  Two concurrent requests on the same hash are modelled as
two threads, each executing `check` (observe the set, pass the guard) and
then `commit` (record the hash and respond paid) as separate atomic steps,
the verification outcome being valid for both (the hash does correspond to a
genuine payment). -/

inductive RacePhase where
  | start
  | verifying
  | done (accepted : Bool)
deriving DecidableEq

/-- One thread step of the `/proxy` handler over the shared used-set: from
`start`, the replay check (reject if present, else suspend on the awaited
verification); from `verifying`, the add-and-respond step. -/
def stepThread (tx : String) (used : List String) :
    RacePhase → RacePhase × List String
  | .start => if used.contains tx then (.done false, used) else (.verifying, used)
  | .verifying => (.done true, tx :: used)
  | .done b => (.done b, used)

structure RaceState where
  used : List String
  t1 : RacePhase
  t2 : RacePhase
deriving DecidableEq

/-- Advance one of the two threads (`true` = thread 1). -/
def raceStep (tx : String) (which : Bool) (st : RaceState) : RaceState :=
  if which then
    let r := stepThread tx st.used st.t1
    ⟨r.2, r.1, st.t2⟩
  else
    let r := stepThread tx st.used st.t2
    ⟨r.2, st.t1, r.1⟩

/-- Run a schedule (a list of thread choices) from a state. -/
def runRace (tx : String) : List Bool → RaceState → RaceState
  | [], st => st
  | w :: ws, st => runRace tx ws (raceStep tx w st)

/-- The concrete real-shaped transaction hash of the failing input. -/
def raceTx : String := "arc:0x00112233445566778899"

/-- C4 (failing execution): the hash `arc:0x00112233445566778899` is of the
real on-chain shape, and under the schedule check₁, check₂, commit₁, commit₂
— both threads passing the replay check before either records the hash —
both concurrent requests finish accepted (`paid = true`) and the hash is
inserted twice: the check-and-insert is not atomic, contradicting the
claimed linearizability of `consume`. -/
theorem raceReplayGuard_double_accept :
    isRealTxHash raceTx = true
    ∧ runRace raceTx [true, false, true, false] ⟨[], .start, .start⟩ =
        ⟨[raceTx, raceTx], .done true, .done true⟩ := by
  constructor
  · decide
  · rfl

/-! ## Authorization Codec (`buildXPaymentHeader`, x402Client lines 1708-1727
of part_004; `decodeXPaymentHeader`, arcVerifier.js lines 189-204)

The wire format is base64(JSON).  `Buffer.from(JSON.stringify(·))
.toString('base64')` and its inverse `JSON.parse(Buffer.from(·,
'base64').toString('utf-8'))` are external, mutually inverse runtime
primitives; the embedding works at the JSON-value level they transport: the
encoder produces the JSON envelope, and the decoder consumes the result of
the parse step — `.error` when the header string is not valid
base64/JSON (`JSON.parse` throws), `.ok v` for the parsed value. -/

inductive Json where
  | null : Json
  | str : String → Json
  | num : Int → Json
  | obj : List (String × Json) → Json

/-- JS property access `v[key]`: `none` models `undefined`. -/
def getField : Json → String → Option Json
  | .obj fields, key => fields.lookup key
  | _, _ => none

/-- The message part of the EIP-712 typed data built by
`buildTransferAuthorization` (part_004 lines 1630-1682): on the wire every
field is a string (amounts and timestamps are decimal strings, the nonce a
hex string).  `from`/`to` are rendered `fromAddr`/`toAddr` (`from` is a Lean
keyword). -/
structure AuthMessage where
  fromAddr : String
  toAddr : String
  value : String
  validAfter : String
  validBefore : String
  nonce : String
deriving DecidableEq

/-- The typed data carried from signing to header building; only the
`message` component is read by `buildXPaymentHeader`. -/
structure TypedData where
  domain : EIP712Domain
  message : AuthMessage
deriving DecidableEq

/-- The JSON object for `payload.authorization`. -/
def authorizationJson (m : AuthMessage) : Json :=
  .obj [("from", .str m.fromAddr), ("to", .str m.toAddr), ("value", .str m.value),
    ("validAfter", .str m.validAfter), ("validBefore", .str m.validBefore),
    ("nonce", .str m.nonce)]

/-- Embedding of `buildXPaymentHeader` (part_004 lines 1708-1727): the JSON
envelope `{x402Version: 1, scheme: 'exact', network, payload: {signature,
authorization}}` with the authorization copied field by field from
`typedData.message`. -/
def buildXPaymentHeader (signature : String) (typedData : TypedData)
    (network : String) : Json :=
  .obj [("x402Version", .num 1), ("scheme", .str "exact"),
    ("network", .str network),
    ("payload", .obj [("signature", .str signature),
      ("authorization", authorizationJson typedData.message)])]

/-- The record `decodeXPaymentHeader` returns; every field is optional
because the source reads properties without validating their presence. -/
structure DecodedHeader where
  version : Option Json
  scheme : Option Json
  network : Option Json
  signature : Option Json
  authorization : Option Json

/-- Embedding of `decodeXPaymentHeader` (arcVerifier.js lines 189-204): a
failed base64/JSON parse — or a parsed `null`, whose property access throws —
is caught and re-thrown as `Invalid X-PAYMENT header: …`; otherwise the five
fields are projected out of the envelope (`payload.payload?.signature` and
`payload.payload?.authorization` with optional chaining), with no check of
the version tag and no check that any field is present. -/
def decodeXPaymentHeader (parsed : Except String Json) :
    Except String DecodedHeader :=
  match parsed with
  | .error e => .error ("Invalid X-PAYMENT header: " ++ e)
  | .ok .null =>
      .error "Invalid X-PAYMENT header: Cannot read properties of null"
  | .ok p => .ok ⟨getField p "x402Version", getField p "scheme",
      getField p "network",
      (getField p "payload").bind (fun pl => getField pl "signature"),
      (getField p "payload").bind (fun pl => getField pl "authorization")⟩

/-- C8: decoding an encoded X-PAYMENT header recovers the signed
authorization exactly — `decodeXPaymentHeader` applied to the envelope
produced by `buildXPaymentHeader` yields version `1`, scheme `exact`, the
same network, the same signature, and the same six authorization fields. -/
theorem decode_encode_roundtrip (signature network : String) (td : TypedData) :
    decodeXPaymentHeader (.ok (buildXPaymentHeader signature td network)) =
      .ok ⟨some (.num 1), some (.str "exact"), some (.str network),
        some (.str signature), some (authorizationJson td.message)⟩ :=
  rfl

/-- C9 counterexample: an envelope whose version tag is `99` (not the
supported version `1`) and which is missing every required field — payer,
payee, amount, nonce, validity window, signature — is decoded successfully
rather than rejected with `UnsupportedVersion` or `MissingField`. -/
theorem decode_no_validation_counterexample :
    decodeXPaymentHeader (.ok (.obj [("x402Version", .num 99)])) =
      .ok ⟨some (.num 99), none, none, none, none⟩ :=
  rfl

/-- C9 (amended): the header decoder fails — with the
`Invalid X-PAYMENT header` error — exactly when the input is not valid
base64/structured data (the parse step throws, or yields `null` whose
property access throws); for any other parsed value it succeeds, passing an
unsupported version tag and absent required fields through unvalidated. -/
theorem decode_error_behaviour (parsed : Except String Json) :
    (∀ e, parsed = .error e →
      decodeXPaymentHeader parsed = .error ("Invalid X-PAYMENT header: " ++ e))
    ∧ (∀ p, parsed = .ok p → p ≠ .null →
      decodeXPaymentHeader parsed =
        .ok ⟨getField p "x402Version", getField p "scheme",
          getField p "network",
          (getField p "payload").bind (fun pl => getField pl "signature"),
          (getField p "payload").bind (fun pl => getField pl "authorization")⟩) := by
  constructor
  · intro e h
    rw [h]
    rfl
  · intro p h hp
    rw [h]
    cases p with
    | null => exact absurd rfl hp
    | str s => rfl
    | num n => rfl
    | obj fields => rfl

/-- Witness for C9's amended statement: a malformed header propagates the
wrapped parse error, and a well-formed but empty object decodes to a record
of absent fields. -/
theorem decode_error_behaviour_witness :
    decodeXPaymentHeader (.error "Unexpected token") =
      .error "Invalid X-PAYMENT header: Unexpected token"
    ∧ decodeXPaymentHeader (.ok (.obj [])) =
      .ok ⟨none, none, none, none, none⟩ := by
  constructor
  · exact (decode_error_behaviour (.error "Unexpected token")).1
      "Unexpected token" rfl
  · exact (decode_error_behaviour (.ok (.obj []))).2 (.obj []) rfl
      (by intro h; cases h)

end Arcent
